import Mathlib

/-!
# Verification of the M-SIDH protocol core (msidh.py)

Shallow embedding of the protocol-orchestration and parameter-validation
engine of the M-SIDH implementation.  The algebraic backend (finite fields,
elliptic curves, isogenies, the Weil pairing, primality testing) is an
external collaborator of the code under verification; it is modelled as an
abstract operation record `AlgBackend`, and the number-theoretic facts the
code relies on (bilinearity of the pairing, the degree relation along an
isogeny, torsion of pairing values) appear as explicit hypotheses of the
theorems, mirroring the documented backend contract.  Randomness is made
explicit: every random draw of the source becomes a parameter of the
embedded function.
-/

set_option maxRecDepth 40000

/-- Abstract algebraic backend (sage, in the source).  `C` is the type of
elliptic curves, `Pt` the type of curve points, `Coord` the type of affine
coordinates, `T` the Weil-pairing target group, `J` the type of
j-invariants.  Each field embeds one backend operation used by msidh.py:
`gens` = `E.gens()`, `is_supersingular` = `E.is_supersingular(proof=True)`,
`xy` = `P.xy()` (which fails on the identity point), `is_on_curve` =
`E.is_on_curve(x, y)`, `orderP` = `P.order()`, `zeroP` = `E(0, 1, 0)`,
`isogCod`/`isogEval` = codomain and evaluation of `E.isogeny(K, algorithm)`
(the `String` argument is the algorithm name passed by the caller),
`weil` = `P.weil_pairing(Q, n)`, `jInv` = `E.j_invariant()`. -/
structure AlgBackend (C Pt Coord T J : Type) where
  gens : C → Pt × Pt
  is_supersingular : C → Bool
  xy : Pt → Except String (Coord × Coord)
  is_on_curve : C → Coord → Coord → Bool
  orderP : Pt → ℕ
  zeroP : C → Pt
  isogCod : C → Pt → String → C
  isogEval : C → Pt → String → Pt → Pt
  weil : Pt → Pt → ℕ → T
  jInv : C → J

/-- The public parameter set held by `MSIDH_Parameters.__init__`
(msidh.py lines 37-46): security parameter, cofactor, prime, base curve,
torsion degrees and the four derived basis points. -/
structure MSIDH_Parameters (C Pt : Type) where
  lamb : ℕ
  f : ℕ
  p : ℕ
  E0 : C
  A : ℕ
  B : ℕ
  PA : Pt
  QA : Pt
  PB : Pt
  QB : Pt

/-- Field assignment part of `MSIDH_Parameters.__init__` (msidh.py lines
37-46), before verification: the basis points are derived from the curve's
two generators by `PA, QA = (B * G * f for G in E0.gens())` and
`PB, QB = (A * G * f for G in E0.gens())`; in sage `B * G * f` is the
scalar multiple `f • (B • G)`. -/
def MSIDH_Parameters.mkRaw {C Pt Coord T J : Type} [AddCommMonoid Pt]
    (bk : AlgBackend C Pt Coord T J) (lamb f p : ℕ) (E0 : C) (A B : ℕ) :
    MSIDH_Parameters C Pt :=
  { lamb := lamb, f := f, p := p, E0 := E0, A := A, B := B
    PA := f • (B • (bk.gens E0).1)
    QA := f • (B • (bk.gens E0).2)
    PB := f • (A • (bk.gens E0).1)
    QB := f • (A • (bk.gens E0).2) }

/-- Modelled from the spec (§6, number-theory backend): sage's
`IntegerMod(IntegerModRing(b), 1).sqrt(all=True)`, the enumeration of all
square roots of 1 in the integers modulo `b` used by `mewtwo`
(msidh.py lines 246-248).  Roots are represented by their canonical
lifts in `[0, b)`. -/
def rootsOfOne (b : ℕ) : List ℕ :=
  (List.range b).filter (fun x => x * x % b == 1 % b)

/-- Modelled from the spec (§6, number-theory backend): `randrange(n)`
returns a uniformly random integer in `[0, n)`; the consumed randomness `r`
is passed explicitly and reduced into range. -/
def randrange (n r : ℕ) : ℕ := r % n

/-- `mewtwo` (msidh.py lines 242-254): sample a square root of 1 modulo
`b` by listing all roots and picking the one at a uniformly random index
(`rand = randrange(l); res = sqs[rand]`).  The source's
`assert res ** 2 == 1` always succeeds; see the mewtwo theorems. -/
def mewtwo (b : ℕ) (r : ℕ) : ℕ :=
  let sqs := rootsOfOne b
  sqs.getD (randrange sqs.length r) 0

/-- `MSIDH_Party_A.generate_private_key` (msidh.py lines 266-270):
`alpha = mewtwo(B)`, `a = randrange(A)`.  `rMask` and `rScalar` are the
two consumed random draws. -/
def MSIDH_Party_A.generate_private_key {C Pt : Type}
    (pr : MSIDH_Parameters C Pt) (rMask rScalar : ℕ) : ℕ × ℕ :=
  (mewtwo pr.B rMask, randrange pr.A rScalar)

/-- `MSIDH_Party_B.generate_private_key` (msidh.py lines 305-309):
`beta = mewtwo(A)`, `b = randrange(B)`. -/
def MSIDH_Party_B.generate_private_key {C Pt : Type}
    (pr : MSIDH_Parameters C Pt) (rMask rScalar : ℕ) : ℕ × ℕ :=
  (mewtwo pr.A rMask, randrange pr.B rScalar)

/-- `MSIDH_Party_A.compute_public_key` (msidh.py lines 272-276):
`KA = PA + sk₂ * QA`, `phiA = E0.isogeny(KA, algorithm="factored")`,
return `(phiA.codomain(), sk₁ * phiA(PB), sk₁ * phiA(QB))`. -/
def MSIDH_Party_A.compute_public_key {C Pt Coord T J : Type} [AddCommMonoid Pt]
    (bk : AlgBackend C Pt Coord T J) (pr : MSIDH_Parameters C Pt)
    (sk : ℕ × ℕ) : C × Pt × Pt :=
  let KA := pr.PA + sk.2 • pr.QA
  (bk.isogCod pr.E0 KA "factored",
   sk.1 • bk.isogEval pr.E0 KA "factored" pr.PB,
   sk.1 • bk.isogEval pr.E0 KA "factored" pr.QB)

/-- `MSIDH_Party_B.compute_public_key` (msidh.py lines 311-315):
`KB = PB + sk₂ * QB`, `phiB = E0.isogeny(KB, algorithm="factored")`,
return `(phiB.codomain(), sk₁ * phiB(PA), sk₁ * phiB(QA))`. -/
def MSIDH_Party_B.compute_public_key {C Pt Coord T J : Type} [AddCommMonoid Pt]
    (bk : AlgBackend C Pt Coord T J) (pr : MSIDH_Parameters C Pt)
    (sk : ℕ × ℕ) : C × Pt × Pt :=
  let KB := pr.PB + sk.2 • pr.QB
  (bk.isogCod pr.E0 KB "factored",
   sk.1 • bk.isogEval pr.E0 KB "factored" pr.PA,
   sk.1 • bk.isogEval pr.E0 KB "factored" pr.QA)

/-- `MSIDH_Party_A.compute_shared_secret` (msidh.py lines 278-293):
`p1 = Ra.weil_pairing(Sa, A)`, `p2 = PA.weil_pairing(QA, A) ** B`,
`assert p1 == p2` (an assertion failure is modelled as the error result),
then `LA = Ra + sk₂ * Sa`, `psiA = EB.isogeny(LA, algorithm="factored")`,
return `psiA.codomain().j_invariant()`. -/
def MSIDH_Party_A.compute_shared_secret {C Pt Coord T J : Type}
    [AddCommMonoid Pt] [Monoid T] [DecidableEq T]
    (bk : AlgBackend C Pt Coord T J) (pr : MSIDH_Parameters C Pt)
    (sk : ℕ × ℕ) (opk : C × Pt × Pt) : Except String J :=
  let p1 := bk.weil opk.2.1 opk.2.2 pr.A
  let p2 := (bk.weil pr.PA pr.QA pr.A) ^ pr.B
  if p1 = p2 then
    let LA := opk.2.1 + sk.2 • opk.2.2
    .ok (bk.jInv (bk.isogCod opk.1 LA "factored"))
  else
    .error "Weil pairing values do not match"

/-- `MSIDH_Party_B.compute_shared_secret` (msidh.py lines 317-333):
`p1 = Rb.weil_pairing(Sb, B)`, `p2 = PB.weil_pairing(QB, B) ** A`,
`assert p1 == p2`, then `LB = Rb + sk₂ * Sb` and the codomain
j-invariant of `EB.isogeny(LB, algorithm="factored")`. -/
def MSIDH_Party_B.compute_shared_secret {C Pt Coord T J : Type}
    [AddCommMonoid Pt] [Monoid T] [DecidableEq T]
    (bk : AlgBackend C Pt Coord T J) (pr : MSIDH_Parameters C Pt)
    (sk : ℕ × ℕ) (opk : C × Pt × Pt) : Except String J :=
  let p1 := bk.weil opk.2.1 opk.2.2 pr.B
  let p2 := (bk.weil pr.PB pr.QB pr.B) ^ pr.A
  if p1 = p2 then
    let LB := opk.2.1 + sk.2 • opk.2.2
    .ok (bk.jInv (bk.isogCod opk.1 LB "factored"))
  else
    .error "Weil pairing values do not match"

/-- The largest magnitude an arbitrary-precision integer may have and still
convert to an IEEE-754 double: Python's `math.sqrt(p)` first converts `p`
to a double and raises `OverflowError` exactly when the rounded value would
reach `2^1024`; rounding to nearest makes the threshold
`2^1024 - 2^970`. -/
def FLOAT_CONV_LIMIT : ℕ := 2 ^ 1024 - 2 ^ 970

/-- The band condition of msidh.py line 92,
`math.sqrt(p)*10e-4 <= A <= math.sqrt(p)*10e4 and
 math.sqrt(p)*10e-4 <= B <= math.sqrt(p)*10e+4`
(note `10e-4 = 1/1000` and `10e4 = 100000`), stated in exact integer
arithmetic by squaring both sides; double rounding at the extreme band
edges is abstracted away. -/
def bandB (p A B : ℕ) : Bool :=
  decide (p ≤ (1000 * A) ^ 2) && decide (A ^ 2 ≤ 10 ^ 10 * p) &&
  decide (p ≤ (1000 * B) ^ 2) && decide (B ^ 2 ≤ 10 ^ 10 * p)

/-- The `A ~ B ~ sqrt(p)` check of msidh.py line 92: `math.sqrt(p)` raises
`OverflowError` when `p` does not fit in a double, otherwise the band
comparison is evaluated. -/
def mathSqrtCheck (p A B : ℕ) : Except String Bool :=
  if FLOAT_CONV_LIMIT ≤ p then
    .error "OverflowError: int too large to convert to float"
  else
    .ok (bandB p A B)

/-- One point of the on-curve block of msidh.py lines 111-118:
`x, y = P.xy()` (an exception propagates, e.g. for the identity point)
followed by `curve.is_on_curve(x, y)`. -/
def onCurveE {C Pt Coord T J : Type} (bk : AlgBackend C Pt Coord T J)
    (E0 : C) (P : Pt) : Except String Bool :=
  (bk.xy P).map (fun c => bk.is_on_curve E0 c.1 c.2)

/-- `MSIDH_Parameters.verify_parameters` (msidh.py lines 57-163): the nine
checks run in source order with short-circuit `return False`; console
printing is ignored.  Exceptions from `math.sqrt` and `P.xy()` propagate
as `.error`. -/
def MSIDH_Parameters.verify_parameters {C Pt Coord T J : Type} [DecidableEq Pt]
    (nt : ℕ → Bool) (bk : AlgBackend C Pt Coord T J)
    (pr : MSIDH_Parameters C Pt) : Except String Bool :=
  if !bk.is_supersingular pr.E0 then .ok false
  else if !nt pr.p then .ok false
  else if !(decide ((pr.p : ℤ) = (pr.A : ℤ) * (pr.B : ℤ) * (pr.f : ℤ) - 1)) then .ok false
  else match mathSqrtCheck pr.p pr.A pr.B with
  | .error e => .error e
  | .ok band =>
    if !band then .ok false
    else if !(decide (Nat.gcd pr.A pr.B = 1)) then .ok false
    else match onCurveE bk pr.E0 pr.PA with
    | .error e => .error e
    | .ok paOn => match onCurveE bk pr.E0 pr.QA with
      | .error e => .error e
      | .ok qaOn => match onCurveE bk pr.E0 pr.PB with
        | .error e => .error e
        | .ok pbOn => match onCurveE bk pr.E0 pr.QB with
          | .error e => .error e
          | .ok qbOn =>
            if !(paOn && qaOn && pbOn && qbOn) then .ok false
            else if !(decide (bk.orderP pr.PA = pr.A) &&
                      decide (bk.orderP pr.QA = pr.A) &&
                      decide (bk.orderP pr.PB = pr.B) &&
                      decide (bk.orderP pr.QB = pr.B)) then .ok false
            else if !(decide (pr.PA ≠ pr.QA) && decide (pr.PB ≠ pr.QB)) then .ok false
            else if (decide (pr.PA = bk.zeroP pr.E0) || decide (pr.QA = bk.zeroP pr.E0)) ||
                    (decide (pr.PB = bk.zeroP pr.E0) || decide (pr.QB = bk.zeroP pr.E0)) then .ok false
            else .ok true

/-- `MSIDH_Parameters.__init__` (msidh.py lines 14-50): derive the four
basis points from the curve generators, run `verify_parameters`, and
`raise Exception("Invalid parameters")` when it returns false.  A raised
exception is the `.error` result; no parameter object escapes then. -/
def MSIDH_Parameters.initP {C Pt Coord T J : Type} [AddCommMonoid Pt] [DecidableEq Pt]
    (nt : ℕ → Bool) (bk : AlgBackend C Pt Coord T J)
    (lamb f p : ℕ) (E0 : C) (A B : ℕ) :
    Except String (MSIDH_Parameters C Pt) :=
  let pr := MSIDH_Parameters.mkRaw bk lamb f p E0 A B
  match MSIDH_Parameters.verify_parameters nt bk pr with
  | .error e => .error e
  | .ok ok => if ok then .ok pr else .error "Invalid parameters"

/-- Spec §3 invariant 6 for one point, as decidable by the backend ops:
the point has affine coordinates lying on the curve (the identity point,
whose `xy()` fails, is covered by invariant 9 instead). -/
def onCB {C Pt Coord T J : Type} (bk : AlgBackend C Pt Coord T J)
    (E0 : C) (P : Pt) : Bool :=
  match bk.xy P with
  | .ok c => bk.is_on_curve E0 c.1 c.2
  | .error _ => false

/-- Spec §3, the nine ParameterSet invariants, stated over the backend
operations: 1 supersingularity, 2 primality, 3 `p = A·B·f − 1`, 4 the
multiplicative band around `√p`, 5 coprimality, 6 all four points on the
curve, 7 exact torsion orders, 8 distinctness, 9 non-triviality. -/
def specNineInvariants {C Pt Coord T J : Type} [DecidableEq Pt]
    (nt : ℕ → Bool) (bk : AlgBackend C Pt Coord T J)
    (pr : MSIDH_Parameters C Pt) : Bool :=
  bk.is_supersingular pr.E0 &&
  nt pr.p &&
  decide ((pr.p : ℤ) = (pr.A : ℤ) * (pr.B : ℤ) * (pr.f : ℤ) - 1) &&
  bandB pr.p pr.A pr.B &&
  decide (Nat.gcd pr.A pr.B = 1) &&
  (onCB bk pr.E0 pr.PA && onCB bk pr.E0 pr.QA &&
   onCB bk pr.E0 pr.PB && onCB bk pr.E0 pr.QB) &&
  (decide (bk.orderP pr.PA = pr.A) && decide (bk.orderP pr.QA = pr.A) &&
   decide (bk.orderP pr.PB = pr.B) && decide (bk.orderP pr.QB = pr.B)) &&
  (decide (pr.PA ≠ pr.QA) && decide (pr.PB ≠ pr.QB)) &&
  !((decide (pr.PA = bk.zeroP pr.E0) || decide (pr.QA = bk.zeroP pr.E0)) ||
    (decide (pr.PB = bk.zeroP pr.E0) || decide (pr.QB = bk.zeroP pr.E0)))

/-- The first 840 primes, the table behind sage's `Primes().unrank(i)` for
`i < 840` (number-theory backend, spec §6), as consumed by the two
parameter-generation presets. -/
def primes840 : List ℕ :=
 [2, 3, 5, 7, 11, 13, 17, 19, 23, 29, 31, 37, 41, 43, 47, 53, 59, 61, 67,
  71, 73, 79, 83, 89, 97, 101, 103, 107, 109, 113, 127, 131, 137, 139, 149,
  151, 157, 163, 167, 173, 179, 181, 191, 193, 197, 199, 211, 223, 227, 229,
  233, 239, 241, 251, 257, 263, 269, 271, 277, 281, 283, 293, 307, 311, 313,
  317, 331, 337, 347, 349, 353, 359, 367, 373, 379, 383, 389, 397, 401, 409,
  419, 421, 431, 433, 439, 443, 449, 457, 461, 463, 467, 479, 487, 491, 499,
  503, 509, 521, 523, 541, 547, 557, 563, 569, 571, 577, 587, 593, 599, 601,
  607, 613, 617, 619, 631, 641, 643, 647, 653, 659, 661, 673, 677, 683, 691,
  701, 709, 719, 727, 733, 739, 743, 751, 757, 761, 769, 773, 787, 797, 809,
  811, 821, 823, 827, 829, 839, 853, 857, 859, 863, 877, 881, 883, 887, 907,
  911, 919, 929, 937, 941, 947, 953, 967, 971, 977, 983, 991, 997, 1009,
  1013, 1019, 1021, 1031, 1033, 1039, 1049, 1051, 1061, 1063, 1069, 1087,
  1091, 1093, 1097, 1103, 1109, 1117, 1123, 1129, 1151, 1153, 1163, 1171,
  1181, 1187, 1193, 1201, 1213, 1217, 1223, 1229, 1231, 1237, 1249, 1259,
  1277, 1279, 1283, 1289, 1291, 1297, 1301, 1303, 1307, 1319, 1321, 1327,
  1361, 1367, 1373, 1381, 1399, 1409, 1423, 1427, 1429, 1433, 1439, 1447,
  1451, 1453, 1459, 1471, 1481, 1483, 1487, 1489, 1493, 1499, 1511, 1523,
  1531, 1543, 1549, 1553, 1559, 1567, 1571, 1579, 1583, 1597, 1601, 1607,
  1609, 1613, 1619, 1621, 1627, 1637, 1657, 1663, 1667, 1669, 1693, 1697,
  1699, 1709, 1721, 1723, 1733, 1741, 1747, 1753, 1759, 1777, 1783, 1787,
  1789, 1801, 1811, 1823, 1831, 1847, 1861, 1867, 1871, 1873, 1877, 1879,
  1889, 1901, 1907, 1913, 1931, 1933, 1949, 1951, 1973, 1979, 1987, 1993,
  1997, 1999, 2003, 2011, 2017, 2027, 2029, 2039, 2053, 2063, 2069, 2081,
  2083, 2087, 2089, 2099, 2111, 2113, 2129, 2131, 2137, 2141, 2143, 2153,
  2161, 2179, 2203, 2207, 2213, 2221, 2237, 2239, 2243, 2251, 2267, 2269,
  2273, 2281, 2287, 2293, 2297, 2309, 2311, 2333, 2339, 2341, 2347, 2351,
  2357, 2371, 2377, 2381, 2383, 2389, 2393, 2399, 2411, 2417, 2423, 2437,
  2441, 2447, 2459, 2467, 2473, 2477, 2503, 2521, 2531, 2539, 2543, 2549,
  2551, 2557, 2579, 2591, 2593, 2609, 2617, 2621, 2633, 2647, 2657, 2659,
  2663, 2671, 2677, 2683, 2687, 2689, 2693, 2699, 2707, 2711, 2713, 2719,
  2729, 2731, 2741, 2749, 2753, 2767, 2777, 2789, 2791, 2797, 2801, 2803,
  2819, 2833, 2837, 2843, 2851, 2857, 2861, 2879, 2887, 2897, 2903, 2909,
  2917, 2927, 2939, 2953, 2957, 2963, 2969, 2971, 2999, 3001, 3011, 3019,
  3023, 3037, 3041, 3049, 3061, 3067, 3079, 3083, 3089, 3109, 3119, 3121,
  3137, 3163, 3167, 3169, 3181, 3187, 3191, 3203, 3209, 3217, 3221, 3229,
  3251, 3253, 3257, 3259, 3271, 3299, 3301, 3307, 3313, 3319, 3323, 3329,
  3331, 3343, 3347, 3359, 3361, 3371, 3373, 3389, 3391, 3407, 3413, 3433,
  3449, 3457, 3461, 3463, 3467, 3469, 3491, 3499, 3511, 3517, 3527, 3529,
  3533, 3539, 3541, 3547, 3557, 3559, 3571, 3581, 3583, 3593, 3607, 3613,
  3617, 3623, 3631, 3637, 3643, 3659, 3671, 3673, 3677, 3691, 3697, 3701,
  3709, 3719, 3727, 3733, 3739, 3761, 3767, 3769, 3779, 3793, 3797, 3803,
  3821, 3823, 3833, 3847, 3851, 3853, 3863, 3877, 3881, 3889, 3907, 3911,
  3917, 3919, 3923, 3929, 3931, 3943, 3947, 3967, 3989, 4001, 4003, 4007,
  4013, 4019, 4021, 4027, 4049, 4051, 4057, 4073, 4079, 4091, 4093, 4099,
  4111, 4127, 4129, 4133, 4139, 4153, 4157, 4159, 4177, 4201, 4211, 4217,
  4219, 4229, 4231, 4241, 4243, 4253, 4259, 4261, 4271, 4273, 4283, 4289,
  4297, 4327, 4337, 4339, 4349, 4357, 4363, 4373, 4391, 4397, 4409, 4421,
  4423, 4441, 4447, 4451, 4457, 4463, 4481, 4483, 4493, 4507, 4513, 4517,
  4519, 4523, 4547, 4549, 4561, 4567, 4583, 4591, 4597, 4603, 4621, 4637,
  4639, 4643, 4649, 4651, 4657, 4663, 4673, 4679, 4691, 4703, 4721, 4723,
  4729, 4733, 4751, 4759, 4783, 4787, 4789, 4793, 4799, 4801, 4813, 4817,
  4831, 4861, 4871, 4877, 4889, 4903, 4909, 4919, 4931, 4933, 4937, 4943,
  4951, 4957, 4967, 4969, 4973, 4987, 4993, 4999, 5003, 5009, 5011, 5021,
  5023, 5039, 5051, 5059, 5077, 5081, 5087, 5099, 5101, 5107, 5113, 5119,
  5147, 5153, 5167, 5171, 5179, 5189, 5197, 5209, 5227, 5231, 5233, 5237,
  5261, 5273, 5279, 5281, 5297, 5303, 5309, 5323, 5333, 5347, 5351, 5381,
  5387, 5393, 5399, 5407, 5413, 5417, 5419, 5431, 5437, 5441, 5443, 5449,
  5471, 5477, 5479, 5483, 5501, 5503, 5507, 5519, 5521, 5527, 5531, 5557,
  5563, 5569, 5573, 5581, 5591, 5623, 5639, 5641, 5647, 5651, 5653, 5657,
  5659, 5669, 5683, 5689, 5693, 5701, 5711, 5717, 5737, 5741, 5743, 5749,
  5779, 5783, 5791, 5801, 5807, 5813, 5821, 5827, 5839, 5843, 5849, 5851,
  5857, 5861, 5867, 5869, 5879, 5881, 5897, 5903, 5923, 5927, 5939, 5953,
  5981, 5987, 6007, 6011, 6029, 6037, 6043, 6047, 6053, 6067, 6073, 6079,
  6089, 6091, 6101, 6113, 6121, 6131, 6133, 6143, 6151, 6163, 6173, 6197,
  6199, 6203, 6211, 6217, 6221, 6229, 6247, 6257, 6263, 6269, 6271, 6277,
  6287, 6299, 6301, 6311, 6317, 6323, 6329, 6337, 6343, 6353, 6359, 6361,
  6367, 6373, 6379, 6389, 6397, 6421, 6427, 6449, 6451, 6469, 6473]

/-- The prime list built by the loop of `MSIDHp128.__init__`
(msidh.py lines 174-181): the `lamb = 256` smallest primes cubed, followed
by the further primes up to `t = 840`. -/
def p128PrimesList : List ℕ :=
  (primes840.take 256).map (fun q => q ^ 3) ++ primes840.drop 256

/-- Python's slice `l[::2]`: the elements of even index. -/
def everyOther : List ℕ → List ℕ
  | [] => []
  | [x] => [x]
  | x :: _ :: rest => x :: everyOther rest

/-- `A = prod(primes_list[::2])` of `MSIDHp128.__init__` (msidh.py
lines 185-189). -/
def A128 : ℕ := (everyOther p128PrimesList).prod

/-- `B = prod(primes_list[1::2])` of `MSIDHp128.__init__` (msidh.py
lines 186-190). -/
def B128 : ℕ := (everyOther (p128PrimesList.drop 1)).prod

/-- `p = A * B * f - 1` with `f = 537` of `MSIDHp128.__init__`
(msidh.py lines 168, 192-193). -/
def p128 : ℕ := A128 * B128 * 537 - 1

/-- The prime list built by the loop of `MSIDHpBaby.__init__`
(msidh.py lines 209-217): the `lamb = 10` smallest primes cubed, followed
by the further primes up to `t = 20`. -/
def babyPrimesList : List ℕ :=
  ((primes840.take 20).take 10).map (fun q => q ^ 3) ++ (primes840.take 20).drop 10

/-- `A = prod(primes_list[::2])` of `MSIDHpBaby.__init__` (msidh.py
lines 221-226). -/
def babyA : ℕ := (everyOther babyPrimesList).prod

/-- `B = prod(primes_list[1::2])` of `MSIDHpBaby.__init__` (msidh.py
lines 222-227). -/
def babyB : ℕ := (everyOther (babyPrimesList.drop 1)).prod

/-- `p = A * B * f - 1` for the toy preset (msidh.py line 230). -/
def pBaby (f : ℕ) : ℕ := babyA * babyB * f - 1

/-- Control flow of `MSIDHpBaby.__init__` (msidh.py lines 204-240) around
its prime search.  `isP` is the backend primality test, `rest` abstracts
everything the constructor does after the `FiniteField((p, 2), 'x')` call
succeeds (curve construction, supersingularity assert, the superclass
init), `fuel` bounds Python's recursion depth.  The source reads
`if not is_prime(p): self.__init__(f + 1)` with *no return*, so after the
recursive call finishes, the outer frame still continues with its own
stale `p` and calls `FiniteField((p, 2))`, which raises for non-prime
`p`. -/
def babyInitFlow (isP : ℕ → Bool) (rest : ℕ → Except String ℕ) :
    ℕ → ℕ → Except String ℕ
  | 0, _ => .error "RecursionError: maximum recursion depth exceeded"
  | fuel + 1, f =>
    let p := pBaby f
    let retry : Except String Unit :=
      if isP p then .ok () else (babyInitFlow isP rest fuel (f + 1)).map (fun _ => ())
    retry.bind (fun _ =>
      if isP p then rest p
      else .error "ValueError: the order of a finite field must be a prime power")

/-- Modelled from the spec (§4.3 DerivePublicKey, role A): 1. kernel
generator `K = P + scalar · Q` over the own basis; 2. the isogeny `φ` from
the base curve with kernel `K`, via the backend's factored construction;
3. return `(φ.codomain(), mask · φ(P'), mask · φ(Q'))` for the peer basis
`(P', Q')`. -/
def DerivePublicKeySpecA {C Pt Coord T J : Type} [AddCommMonoid Pt]
    (bk : AlgBackend C Pt Coord T J) (pr : MSIDH_Parameters C Pt)
    (mask scalar : ℕ) : C × Pt × Pt :=
  let K := pr.PA + scalar • pr.QA
  let cod := bk.isogCod pr.E0 K "factored"
  let imP := bk.isogEval pr.E0 K "factored" pr.PB
  let imQ := bk.isogEval pr.E0 K "factored" pr.QB
  (cod, mask • imP, mask • imQ)

/-- Modelled from the spec (§4.3 DerivePublicKey, role B): the mirror of
role A, own basis `(PB, QB)`, peer basis `(PA, QA)`. -/
def DerivePublicKeySpecB {C Pt Coord T J : Type} [AddCommMonoid Pt]
    (bk : AlgBackend C Pt Coord T J) (pr : MSIDH_Parameters C Pt)
    (mask scalar : ℕ) : C × Pt × Pt :=
  let K := pr.PB + scalar • pr.QB
  let cod := bk.isogCod pr.E0 K "factored"
  let imP := bk.isogEval pr.E0 K "factored" pr.PA
  let imQ := bk.isogEval pr.E0 K "factored" pr.QA
  (cod, mask • imP, mask • imQ)

/-- Executable primality test (trial division), a faithful stand-in for
the backend's exact `is_prime` on small inputs. -/
def isPrimeT (n : ℕ) : Bool :=
  decide (2 ≤ n) && (List.range n).all (fun d => decide (d < 2) || !(decide (n % d = 0)))

/-- A primality oracle that accepts everything; used where the backend's
answer on an astronomically large input is hypothesised, not computed. -/
def ntTrue : ℕ → Bool := fun _ => true

/-- A small concrete backend instance used to instantiate theorems:
curves are trivial, points are naturals under addition, the pairing is
constantly 1, isogeny evaluation is the identity.  The point orders are
chosen so that the parameter set `prT` below is fully valid. -/
def bkT : AlgBackend Unit ℕ ℕ ℕ ℕ :=
  { gens := fun _ => (1, 2)
    is_supersingular := fun _ => true
    xy := fun P => if P = 0 then .error "ZeroDivisionError" else .ok (P, P)
    is_on_curve := fun _ _ _ => true
    orderP := fun P => if P = 3 ∨ P = 6 then 2 else if P = 2 ∨ P = 4 then 3 else 0
    zeroP := fun _ => 0
    isogCod := fun _ _ _ => ()
    isogEval := fun _ _ _ X => X
    weil := fun _ _ _ => 1
    jInv := fun _ => 0 }

/-- A fully valid small parameter set over `bkT`: `A = 2`, `B = 3`,
`f = 1`, `p = 5 = 2·3·1 − 1`, basis points `PA = 3, QA = 6, PB = 2,
QB = 4`. -/
def prT : MSIDH_Parameters Unit ℕ := MSIDH_Parameters.mkRaw bkT 10 1 5 () 2 3

/-- Like `bkT` but with a non-constant pairing, used to exhibit a pairing
mismatch. -/
def bkM : AlgBackend Unit ℕ ℕ ℕ ℕ :=
  { gens := fun _ => (1, 2)
    is_supersingular := fun _ => true
    xy := fun P => if P = 0 then .error "ZeroDivisionError" else .ok (P, P)
    is_on_curve := fun _ _ _ => true
    orderP := fun P => if P = 3 ∨ P = 6 then 2 else if P = 2 ∨ P = 4 then 3 else 0
    zeroP := fun _ => 0
    isogCod := fun _ _ _ => ()
    isogEval := fun _ _ _ X => X
    weil := fun X Y _ => X + Y
    jInv := fun _ => 0 }

/-- A faithful small model of the algebraic backend: the group of points
is `E(F_{p²})[A·B·f] ≅ (ℤ/30)²` for `A = 5`, `B = 3`, `f = 2`,
`p = 29 = 5·3·2 − 1`.  The degree-`n` Weil pairing of `X` and `Y` is
`ζ^((30/n)·det(X,Y))` with the target group `μ₃₀` written as
`Multiplicative (ZMod 30)`; it is bilinear, alternating and
non-degenerate on each torsion subgroup.  Isogeny evaluation is the
degree-3 endomorphism given by the matrix `[[1, 1], [0, 3]]` (determinant
3), whose kernel is generated by `(10, 20) = PB + 2·QB`; it satisfies
`e_n(φX, φY) = e_n(X, Y)³` for every `n`. -/
def bkX : AlgBackend Unit (ZMod 30 × ZMod 30) (ZMod 30) (Multiplicative (ZMod 30)) ℕ :=
  { gens := fun _ => ((1, 0), (0, 1))
    is_supersingular := fun _ => true
    xy := fun P => if P = 0 then .error "ZeroDivisionError" else .ok (P.1, P.2)
    is_on_curve := fun _ _ _ => true
    orderP := fun P =>
      if P = ((6 : ZMod 30), (0 : ZMod 30)) ∨ P = ((0 : ZMod 30), (6 : ZMod 30)) then 5
      else if P = ((10 : ZMod 30), (0 : ZMod 30)) ∨ P = ((0 : ZMod 30), (10 : ZMod 30)) then 3
      else 0
    zeroP := fun _ => 0
    isogCod := fun _ _ _ => ()
    isogEval := fun _ _ _ X => (X.1 + X.2, 3 * X.2)
    weil := fun X Y n =>
      Multiplicative.ofAdd (((30 / n : ℕ) : ZMod 30) * (X.1 * Y.2 - X.2 * Y.1))
    jInv := fun _ => 0 }

/-- The parameter set of the `bkX` model: `A = 5`, `B = 3`, `f = 2`,
`p = 29`; the derived basis is `PA = (6,0), QA = (0,6)` (order 5) and
`PB = (10,0), QB = (0,10)` (order 3). -/
def prX : MSIDH_Parameters Unit (ZMod 30 × ZMod 30) :=
  MSIDH_Parameters.mkRaw bkX 10 2 29 () 5 3

theorem mem_rootsOfOne {b x : ℕ} : x ∈ rootsOfOne b ↔ x < b ∧ x * x % b = 1 % b := by
  simp [rootsOfOne, List.mem_filter, List.mem_range]

theorem rootsOfOne_nodup (b : ℕ) : (rootsOfOne b).Nodup :=
  List.Nodup.filter _ (List.nodup_range b)

theorem rootsOfOne_length_pos (b : ℕ) (hb : 0 < b) : 0 < (rootsOfOne b).length := by
  by_cases h1 : b = 1
  · subst h1; decide
  · have hlt : 1 < b := by omega
    have hmem : (1 : ℕ) ∈ rootsOfOne b := mem_rootsOfOne.mpr ⟨hlt, by norm_num⟩
    exact List.length_pos.mpr (List.ne_nil_of_mem hmem)

theorem mewtwo_mem (b r : ℕ) (hb : 0 < b) : mewtwo b r ∈ rootsOfOne b := by
  have hlen := rootsOfOne_length_pos b hb
  have hlt : randrange (rootsOfOne b).length r < (rootsOfOne b).length :=
    Nat.mod_lt _ hlen
  show (rootsOfOne b).getD (randrange (rootsOfOne b).length r) 0 ∈ rootsOfOne b
  rw [List.getD_eq_getElem _ _ hlt]
  exact List.getElem_mem hlt

theorem mewtwo_surj (b : ℕ) (x : ℕ) (hx : x ∈ rootsOfOne b) : ∃ s : ℕ, mewtwo b s = x := by
  obtain ⟨i, hi, hget⟩ := List.mem_iff_getElem.mp hx
  refine ⟨i, ?_⟩
  show (rootsOfOne b).getD (randrange (rootsOfOne b).length i) 0 = x
  unfold randrange
  rw [Nat.mod_eq_of_lt hi, List.getD_eq_getElem _ _ hi]
  exact hget

theorem pow_unit_mod {T : Type} [Monoid T] (t : T) (A B m : ℕ) (hA : 0 < A)
    (hm : m % A = 1 % A) (ht : t ^ A = 1) : t ^ (B * m) = t ^ B := by
  by_cases h1 : A = 1
  · subst h1
    have ht1 : t = 1 := by simpa using ht
    simp [ht1]
  · have hlt : 1 < A := by omega
    have h1A : 1 % A = 1 := Nat.mod_eq_of_lt hlt
    have hm' : m = A * (m / A) + 1 := by
      conv_lhs => rw [← Nat.div_add_mod m A]
      rw [hm, h1A]
    rw [hm']
    have hexp : B * (A * (m / A) + 1) = A * (B * (m / A)) + B := by ring
    rw [hexp, pow_add, pow_mul, ht, one_pow, one_mul]

theorem weil_masked_eq {Pt T : Type} [AddCommMonoid Pt] [Monoid T]
    (w : Pt → Pt → ℕ → T) (ev : Pt → Pt) (P Q : Pt) (n d b : ℕ)
    (hn : 0 < n) (hb : b * b % n = 1 % n)
    (hbil : ∀ (m : ℕ) (X Y : Pt), w (m • X) (m • Y) n = w X Y n ^ (m * m))
    (hdeg : w (ev P) (ev Q) n = w P Q n ^ d)
    (hord : w P Q n ^ n = 1) :
    w (b • ev P) (b • ev Q) n = w P Q n ^ d := by
  rw [hbil, hdeg, ← pow_mul]
  exact pow_unit_mod _ n d (b * b) hn hb hord

/-- C3: for every modulus `b`, the masking sampler returns an element `x`
with `x² ≡ 1 (mod b)`, drawn uniformly among the set of *all* square roots
of 1 modulo `b` (not merely ±1): the sampled value is always a root, the
enumerated list contains exactly the roots with no duplicates, and every
root is reached by some random draw. -/
theorem mewtwo_uniform_over_all_roots (b r : ℕ) (hb : 0 < b) :
    mewtwo b r ∈ rootsOfOne b ∧
    mewtwo b r * mewtwo b r % b = 1 % b ∧
    (∀ x : ℕ, x ∈ rootsOfOne b ↔ x < b ∧ x * x % b = 1 % b) ∧
    (rootsOfOne b).Nodup ∧
    (∀ x ∈ rootsOfOne b, ∃ s : ℕ, mewtwo b s = x) :=
  ⟨mewtwo_mem b r hb, (mem_rootsOfOne.mp (mewtwo_mem b r hb)).2,
    fun _ => mem_rootsOfOne, rootsOfOne_nodup b, fun x hx => mewtwo_surj b x hx⟩

/-- Witness for the C3 theorem at `b = 12`, whose four square roots of 1
are `1, 5, 7, 11`; the draw `r = 2` yields the non-trivial root 7. -/
theorem mewtwo_uniform_over_all_roots_witness :
    0 < 12 ∧ mewtwo 12 2 ∈ rootsOfOne 12 ∧ mewtwo 12 2 = 7 ∧
      (rootsOfOne 12).length = 4 :=
  ⟨by decide, (mewtwo_uniform_over_all_roots 12 2 (by decide)).1, by decide, by decide⟩

/-- C5: each role's `generate_private_key` returns `(mask, scalar)` with
the mask a square root of 1 modulo the *peer's* torsion degree (role A
modulo `B`, role B modulo `A`) and the scalar the uniform draw reduced
into `[0, ownDegree)` (role A below `A`, role B below `B`); randomness
consumption is explicit (`r1`-`r4`) and there is no other effect. -/
theorem generate_private_key_shape {C Pt : Type} (pr : MSIDH_Parameters C Pt)
    (r1 r2 r3 r4 : ℕ) (hA : 0 < pr.A) (hB : 0 < pr.B) :
    (MSIDH_Party_A.generate_private_key pr r1 r2).1 ∈ rootsOfOne pr.B ∧
    (MSIDH_Party_A.generate_private_key pr r1 r2).1 *
      (MSIDH_Party_A.generate_private_key pr r1 r2).1 % pr.B = 1 % pr.B ∧
    (MSIDH_Party_A.generate_private_key pr r1 r2).2 = randrange pr.A r2 ∧
    (MSIDH_Party_A.generate_private_key pr r1 r2).2 < pr.A ∧
    (MSIDH_Party_B.generate_private_key pr r3 r4).1 ∈ rootsOfOne pr.A ∧
    (MSIDH_Party_B.generate_private_key pr r3 r4).1 *
      (MSIDH_Party_B.generate_private_key pr r3 r4).1 % pr.A = 1 % pr.A ∧
    (MSIDH_Party_B.generate_private_key pr r3 r4).2 = randrange pr.B r4 ∧
    (MSIDH_Party_B.generate_private_key pr r3 r4).2 < pr.B :=
  ⟨mewtwo_mem _ _ hB, (mem_rootsOfOne.mp (mewtwo_mem _ _ hB)).2, rfl, Nat.mod_lt _ hA,
    mewtwo_mem _ _ hA, (mem_rootsOfOne.mp (mewtwo_mem _ _ hA)).2, rfl, Nat.mod_lt _ hB⟩

/-- Witness for the C5 theorem on the concrete parameter set `prT`. -/
theorem generate_private_key_shape_witness :
    0 < prT.A ∧ 0 < prT.B ∧
      (MSIDH_Party_A.generate_private_key prT 0 1).1 ∈ rootsOfOne prT.B ∧
      (MSIDH_Party_A.generate_private_key prT 0 1).2 < prT.A :=
  ⟨by decide, by decide,
    (generate_private_key_shape prT 0 1 0 2 (by decide) (by decide)).1,
    (generate_private_key_shape prT 0 1 0 2 (by decide) (by decide)).2.2.2.1⟩

/-- C6: the ParameterSet constructor derives the torsion bases by scaling
the curve's two backend generators: `PA = B·f·G1`, `QA = B·f·G2`,
`PB = A·f·G1`, `QB = A·f·G2`, first generator to first basis point. -/
theorem basis_derivation_from_gens {C Pt Coord T J : Type} [AddCommMonoid Pt]
    (bk : AlgBackend C Pt Coord T J) (lamb f p : ℕ) (E0 : C) (A B : ℕ) :
    (MSIDH_Parameters.mkRaw bk lamb f p E0 A B).PA = (B * f) • (bk.gens E0).1 ∧
    (MSIDH_Parameters.mkRaw bk lamb f p E0 A B).QA = (B * f) • (bk.gens E0).2 ∧
    (MSIDH_Parameters.mkRaw bk lamb f p E0 A B).PB = (A * f) • (bk.gens E0).1 ∧
    (MSIDH_Parameters.mkRaw bk lamb f p E0 A B).QB = (A * f) • (bk.gens E0).2 := by
  refine ⟨?_, ?_, ?_, ?_⟩ <;>
    simp [MSIDH_Parameters.mkRaw, smul_smul, Nat.mul_comm]

/-- C4: each role's `compute_public_key` returns exactly the triple
`(φ.codomain(), mask · φ(P'), mask · φ(Q'))` prescribed by the spec's
DerivePublicKey steps, with kernel `K = P + scalar · Q` over the own basis,
the backend's factored isogeny construction, and the peer basis images. -/
theorem public_key_refines_spec {C Pt Coord T J : Type} [AddCommMonoid Pt]
    (bk : AlgBackend C Pt Coord T J) (pr : MSIDH_Parameters C Pt)
    (mask scalar : ℕ) :
    MSIDH_Party_A.compute_public_key bk pr (mask, scalar) =
      DerivePublicKeySpecA bk pr mask scalar ∧
    MSIDH_Party_B.compute_public_key bk pr (mask, scalar) =
      DerivePublicKeySpecB bk pr mask scalar :=
  ⟨rfl, rfl⟩

/-- C8: when the pairing-consistency check on the peer public key fails,
`compute_shared_secret` stops with the assertion error and returns no
shared secret (the isogeny step of the result is never reached). -/
theorem pairing_mismatch_aborts {C Pt Coord T J : Type}
    [AddCommMonoid Pt] [Monoid T] [DecidableEq T]
    (bk : AlgBackend C Pt Coord T J) (pr : MSIDH_Parameters C Pt)
    (skA skB : ℕ × ℕ) (opkA opkB : C × Pt × Pt)
    (hA : bk.weil opkB.2.1 opkB.2.2 pr.A ≠ (bk.weil pr.PA pr.QA pr.A) ^ pr.B)
    (hB : bk.weil opkA.2.1 opkA.2.2 pr.B ≠ (bk.weil pr.PB pr.QB pr.B) ^ pr.A) :
    MSIDH_Party_A.compute_shared_secret bk pr skA opkB =
      .error "Weil pairing values do not match" ∧
    MSIDH_Party_B.compute_shared_secret bk pr skB opkA =
      .error "Weil pairing values do not match" := by
  constructor
  · simp [MSIDH_Party_A.compute_shared_secret, hA]
  · simp [MSIDH_Party_B.compute_shared_secret, hB]

/-- Witness for the C8 theorem: over the `bkM` backend a zeroed peer
triple fails both roles' checks and both shared-secret computations return
the assertion error. -/
theorem pairing_mismatch_aborts_witness :
    MSIDH_Party_A.compute_shared_secret bkM (MSIDH_Parameters.mkRaw bkM 10 1 5 () 2 3)
        (2, 1) ((), 0, 0) = .error "Weil pairing values do not match" ∧
    MSIDH_Party_B.compute_shared_secret bkM (MSIDH_Parameters.mkRaw bkM 10 1 5 () 2 3)
        (1, 1) ((), 0, 0) = .error "Weil pairing values do not match" :=
  pairing_mismatch_aborts bkM (MSIDH_Parameters.mkRaw bkM 10 1 5 () 2 3)
    (2, 1) (1, 1) ((), 0, 0) ((), 0, 0) (by decide) (by decide)

/-- C9 (divergence witness): whenever the primality test rejects
`p = A·B·f − 1` for the *starting* cofactor `f`, `MSIDHpBaby.__init__`
fails — regardless of how the retry with `f + 1` turns out and of
everything after the field construction — because the recursive call is
not followed by a return, so the stale composite `p` reaches
`FiniteField((p, 2))`. -/
theorem baby_retry_always_fails (isP : ℕ → Bool) (rest : ℕ → Except String ℕ)
    (fuel f : ℕ) (h : isP (pBaby f) = false) :
    ∃ e, babyInitFlow isP rest fuel f = .error e := by
  cases fuel with
  | zero => exact ⟨_, rfl⟩
  | succ n =>
    cases hres : babyInitFlow isP rest n (f + 1) with
    | error e =>
      exact ⟨e, by simp [babyInitFlow, h, hres, Except.map, Except.bind]⟩
    | ok v =>
      exact ⟨"ValueError: the order of a finite field must be a prime power",
        by simp [babyInitFlow, h, hres, Except.map, Except.bind]⟩

/-- Witness for the C9 theorem: at starting cofactor `f = 5` (where the
next cofactor 6 does yield a prime), `p = A·B·5 − 1` is divisible by 1153
and larger than 1153, hence composite, and the constructor flow fails. -/
theorem baby_retry_always_fails_witness :
    pBaby 5 % 1153 = 0 ∧ 1153 < pBaby 5 ∧
      (∃ e, babyInitFlow (fun n => !(decide (n % 1153 = 0))) (fun p => .ok p) 3 5 = .error e) :=
  ⟨by decide, by decide,
    baby_retry_always_fails (fun n => !(decide (n % 1153 = 0))) (fun p => .ok p) 3 5 (by decide)⟩

/-- C10: when the prime modulus is at least `2^1024` it cannot be
converted to a double, so the band check raises `OverflowError` instead of
letting `verify_parameters` return a boolean — provided the checks that
run before it (supersingularity, primality, the `p = A·B·f − 1` identity)
pass, as they do for the production preset; and the production preset's
modulus `p128` is indeed at least `2^1024`. -/
theorem verify_overflow_on_large_p {C Pt Coord T J : Type} [DecidableEq Pt]
    (bk : AlgBackend C Pt Coord T J) (nt : ℕ → Bool)
    (pr : MSIDH_Parameters C Pt)
    (h1 : bk.is_supersingular pr.E0 = true) (h2 : nt pr.p = true)
    (h3 : (pr.p : ℤ) = (pr.A : ℤ) * (pr.B : ℤ) * (pr.f : ℤ) - 1)
    (h4 : 2 ^ 1024 ≤ pr.p) :
    MSIDH_Parameters.verify_parameters nt bk pr =
      .error "OverflowError: int too large to convert to float" ∧
    2 ^ 1024 ≤ p128 := by
  constructor
  · have hov : FLOAT_CONV_LIMIT ≤ pr.p :=
      le_trans (Nat.sub_le (2 ^ 1024) (2 ^ 970)) h4
    unfold MSIDH_Parameters.verify_parameters mathSqrtCheck
    simp [h1, h2, h3, hov]
  · decide

/-- Witness for the C10 theorem: the production-preset modulus `p128`
with any backend whose supersingularity test accepts and the backend
primality oracle (the source asserts `is_prime(p)` for this preset). -/
theorem verify_overflow_on_large_p_witness :
    MSIDH_Parameters.verify_parameters ntTrue bkT
        (MSIDH_Parameters.mkRaw bkT 256 537 p128 () A128 B128) =
      .error "OverflowError: int too large to convert to float" :=
  (verify_overflow_on_large_p bkT ntTrue
      (MSIDH_Parameters.mkRaw bkT 256 537 p128 () A128 B128)
      rfl rfl (by decide) (by decide)).1

/-- C1 counterexample: in the faithful small model `bkX` (genuine bilinear
pairing with the degree relation, full torsion group `(ℤ/30)²`), the
parameter set `prX` is validly constructed and the peer key of role B is
honestly generated with a non-trivial mask, yet the check the claim
prescribes for role A — pairing degree `peerDegree = B`, basis
`(PB, QB)`, exponent `ownDegree = A` — fails on it, while the check the
code actually performs — degree `A`, basis `(PA, QA)`, exponent `B` —
holds. -/
theorem pairing_check_claim_counterexample :
    MSIDH_Parameters.initP isPrimeT bkX 10 2 29 () 5 3 = .ok prX ∧
    MSIDH_Party_B.generate_private_key prX 1 2 = (4, 2) ∧
    bkX.weil (MSIDH_Party_B.compute_public_key bkX prX (4, 2)).2.1
        (MSIDH_Party_B.compute_public_key bkX prX (4, 2)).2.2 prX.B ≠
      bkX.weil prX.PB prX.QB prX.B ^ prX.A ∧
    bkX.weil (MSIDH_Party_B.compute_public_key bkX prX (4, 2)).2.1
        (MSIDH_Party_B.compute_public_key bkX prX (4, 2)).2.2 prX.A =
      bkX.weil prX.PA prX.QA prX.A ^ prX.B :=
  ⟨rfl, rfl, by decide, by decide⟩

/-- C1 as amended: the pairing-consistency check each role performs on a
received peer public key compares the pairing at the verifier's *own*
torsion degree over its *own* unmasked basis, raised to the *peer's*
degree — role A checks `e_A(Ra, Sa) = e_A(PA, QA)^B`, role B checks
`e_B(Rb, Sb) = e_B(PB, QB)^A` — and this identity holds for every
honestly generated peer public key, independent of the masking element,
given the backend pairing contract (bilinearity, the degree relation
along the peer's isogeny, and `n`-torsion of degree-`n` pairing
values). -/
theorem pairing_check_identity {C Pt Coord T J : Type}
    [AddCommMonoid Pt] [Monoid T] [DecidableEq T]
    (bk : AlgBackend C Pt Coord T J) (pr : MSIDH_Parameters C Pt)
    (skA skB : ℕ × ℕ)
    (hApos : 0 < pr.A) (hBpos : 0 < pr.B)
    (hmA : skA.1 * skA.1 % pr.B = 1 % pr.B)
    (hmB : skB.1 * skB.1 % pr.A = 1 % pr.A)
    (hbilA : ∀ (m : ℕ) (X Y : Pt),
      bk.weil (m • X) (m • Y) pr.A = bk.weil X Y pr.A ^ (m * m))
    (hbilB : ∀ (m : ℕ) (X Y : Pt),
      bk.weil (m • X) (m • Y) pr.B = bk.weil X Y pr.B ^ (m * m))
    (hdegB : bk.weil (bk.isogEval pr.E0 (pr.PB + skB.2 • pr.QB) "factored" pr.PA)
        (bk.isogEval pr.E0 (pr.PB + skB.2 • pr.QB) "factored" pr.QA) pr.A =
        bk.weil pr.PA pr.QA pr.A ^ pr.B)
    (hdegA : bk.weil (bk.isogEval pr.E0 (pr.PA + skA.2 • pr.QA) "factored" pr.PB)
        (bk.isogEval pr.E0 (pr.PA + skA.2 • pr.QA) "factored" pr.QB) pr.B =
        bk.weil pr.PB pr.QB pr.B ^ pr.A)
    (hordA : bk.weil pr.PA pr.QA pr.A ^ pr.A = 1)
    (hordB : bk.weil pr.PB pr.QB pr.B ^ pr.B = 1) :
    bk.weil (MSIDH_Party_B.compute_public_key bk pr skB).2.1
        (MSIDH_Party_B.compute_public_key bk pr skB).2.2 pr.A =
      bk.weil pr.PA pr.QA pr.A ^ pr.B ∧
    bk.weil (MSIDH_Party_A.compute_public_key bk pr skA).2.1
        (MSIDH_Party_A.compute_public_key bk pr skA).2.2 pr.B =
      bk.weil pr.PB pr.QB pr.B ^ pr.A := by
  constructor
  · have h := weil_masked_eq bk.weil
      (bk.isogEval pr.E0 (pr.PB + skB.2 • pr.QB) "factored")
      pr.PA pr.QA pr.A pr.B skB.1 hApos hmB hbilA hdegB hordA
    simpa [MSIDH_Party_B.compute_public_key] using h
  · have h := weil_masked_eq bk.weil
      (bk.isogEval pr.E0 (pr.PA + skA.2 • pr.QA) "factored")
      pr.PB pr.QB pr.B pr.A skA.1 hBpos hmA hbilB hdegA hordB
    simpa [MSIDH_Party_A.compute_public_key] using h

/-- Witness for the amended C1 theorem over the trivial backend `bkT` and
the valid parameter set `prT`, with non-trivial masks. -/
theorem pairing_check_identity_witness :
    bkT.weil (MSIDH_Party_B.compute_public_key bkT prT (1, 1)).2.1
        (MSIDH_Party_B.compute_public_key bkT prT (1, 1)).2.2 prT.A =
      bkT.weil prT.PA prT.QA prT.A ^ prT.B :=
  (pairing_check_identity bkT prT (2, 1) (1, 1) (by decide) (by decide)
    (by decide) (by decide)
    (fun m X Y => by simp [bkT])
    (fun m X Y => by simp [bkT])
    (by simp [bkT]) (by simp [bkT]) (by simp [bkT]) (by simp [bkT])).1

/-- C2: for every parameter set and every pair of honestly generated
private keys (masks are square roots of 1 modulo the peer degree), after
exchanging the public keys both parties' `compute_shared_secret` succeed
and return the identical j-invariant.  The backend contract appears as
hypotheses: the pairing laws making both consistency checks pass, the
additivity of isogeny evaluation, invariance of the codomain under
scaling the kernel generator by the (unit) mask, and commutativity of the
isogeny square at the j-invariant level. -/
theorem shared_secret_agreement {C Pt Coord T J : Type}
    [AddCommMonoid Pt] [Monoid T] [DecidableEq T]
    (bk : AlgBackend C Pt Coord T J) (pr : MSIDH_Parameters C Pt)
    (skA skB : ℕ × ℕ)
    (hApos : 0 < pr.A) (hBpos : 0 < pr.B)
    (hmA : skA.1 * skA.1 % pr.B = 1 % pr.B)
    (hmB : skB.1 * skB.1 % pr.A = 1 % pr.A)
    (hbilA : ∀ (m : ℕ) (X Y : Pt),
      bk.weil (m • X) (m • Y) pr.A = bk.weil X Y pr.A ^ (m * m))
    (hbilB : ∀ (m : ℕ) (X Y : Pt),
      bk.weil (m • X) (m • Y) pr.B = bk.weil X Y pr.B ^ (m * m))
    (hdegB : bk.weil (bk.isogEval pr.E0 (pr.PB + skB.2 • pr.QB) "factored" pr.PA)
        (bk.isogEval pr.E0 (pr.PB + skB.2 • pr.QB) "factored" pr.QA) pr.A =
        bk.weil pr.PA pr.QA pr.A ^ pr.B)
    (hdegA : bk.weil (bk.isogEval pr.E0 (pr.PA + skA.2 • pr.QA) "factored" pr.PB)
        (bk.isogEval pr.E0 (pr.PA + skA.2 • pr.QA) "factored" pr.QB) pr.B =
        bk.weil pr.PB pr.QB pr.B ^ pr.A)
    (hordA : bk.weil pr.PA pr.QA pr.A ^ pr.A = 1)
    (hordB : bk.weil pr.PB pr.QB pr.B ^ pr.B = 1)
    (hhomB : ∀ (X Y : Pt) (n : ℕ),
      bk.isogEval pr.E0 (pr.PB + skB.2 • pr.QB) "factored" (X + n • Y) =
        bk.isogEval pr.E0 (pr.PB + skB.2 • pr.QB) "factored" X +
          n • bk.isogEval pr.E0 (pr.PB + skB.2 • pr.QB) "factored" Y)
    (hhomA : ∀ (X Y : Pt) (n : ℕ),
      bk.isogEval pr.E0 (pr.PA + skA.2 • pr.QA) "factored" (X + n • Y) =
        bk.isogEval pr.E0 (pr.PA + skA.2 • pr.QA) "factored" X +
          n • bk.isogEval pr.E0 (pr.PA + skA.2 • pr.QA) "factored" Y)
    (hunitA : bk.isogCod (bk.isogCod pr.E0 (pr.PB + skB.2 • pr.QB) "factored")
        (skB.1 • bk.isogEval pr.E0 (pr.PB + skB.2 • pr.QB) "factored"
          (pr.PA + skA.2 • pr.QA)) "factored" =
      bk.isogCod (bk.isogCod pr.E0 (pr.PB + skB.2 • pr.QB) "factored")
        (bk.isogEval pr.E0 (pr.PB + skB.2 • pr.QB) "factored"
          (pr.PA + skA.2 • pr.QA)) "factored")
    (hunitB : bk.isogCod (bk.isogCod pr.E0 (pr.PA + skA.2 • pr.QA) "factored")
        (skA.1 • bk.isogEval pr.E0 (pr.PA + skA.2 • pr.QA) "factored"
          (pr.PB + skB.2 • pr.QB)) "factored" =
      bk.isogCod (bk.isogCod pr.E0 (pr.PA + skA.2 • pr.QA) "factored")
        (bk.isogEval pr.E0 (pr.PA + skA.2 • pr.QA) "factored"
          (pr.PB + skB.2 • pr.QB)) "factored")
    (hcomm : bk.jInv (bk.isogCod (bk.isogCod pr.E0 (pr.PB + skB.2 • pr.QB) "factored")
        (bk.isogEval pr.E0 (pr.PB + skB.2 • pr.QB) "factored"
          (pr.PA + skA.2 • pr.QA)) "factored") =
      bk.jInv (bk.isogCod (bk.isogCod pr.E0 (pr.PA + skA.2 • pr.QA) "factored")
        (bk.isogEval pr.E0 (pr.PA + skA.2 • pr.QA) "factored"
          (pr.PB + skB.2 • pr.QB)) "factored")) :
    ∃ j : J,
      MSIDH_Party_A.compute_shared_secret bk pr skA
        (MSIDH_Party_B.compute_public_key bk pr skB) = .ok j ∧
      MSIDH_Party_B.compute_shared_secret bk pr skB
        (MSIDH_Party_A.compute_public_key bk pr skA) = .ok j := by
  have hchkA := weil_masked_eq bk.weil
    (bk.isogEval pr.E0 (pr.PB + skB.2 • pr.QB) "factored")
    pr.PA pr.QA pr.A pr.B skB.1 hApos hmB hbilA hdegB hordA
  have hchkB := weil_masked_eq bk.weil
    (bk.isogEval pr.E0 (pr.PA + skA.2 • pr.QA) "factored")
    pr.PB pr.QB pr.B pr.A skA.1 hBpos hmA hbilB hdegA hordB
  have hLA : skB.1 • bk.isogEval pr.E0 (pr.PB + skB.2 • pr.QB) "factored" pr.PA +
      skA.2 • (skB.1 • bk.isogEval pr.E0 (pr.PB + skB.2 • pr.QB) "factored" pr.QA) =
      skB.1 • bk.isogEval pr.E0 (pr.PB + skB.2 • pr.QB) "factored"
        (pr.PA + skA.2 • pr.QA) := by
    rw [smul_comm skA.2 skB.1, ← smul_add, ← hhomB]
  have hLB : skA.1 • bk.isogEval pr.E0 (pr.PA + skA.2 • pr.QA) "factored" pr.PB +
      skB.2 • (skA.1 • bk.isogEval pr.E0 (pr.PA + skA.2 • pr.QA) "factored" pr.QB) =
      skA.1 • bk.isogEval pr.E0 (pr.PA + skA.2 • pr.QA) "factored"
        (pr.PB + skB.2 • pr.QB) := by
    rw [smul_comm skB.2 skA.1, ← smul_add, ← hhomA]
  refine ⟨bk.jInv (bk.isogCod (bk.isogCod pr.E0 (pr.PB + skB.2 • pr.QB) "factored")
      (bk.isogEval pr.E0 (pr.PB + skB.2 • pr.QB) "factored"
        (pr.PA + skA.2 • pr.QA)) "factored"), ?_, ?_⟩
  · simp only [MSIDH_Party_A.compute_shared_secret, MSIDH_Party_B.compute_public_key]
    rw [if_pos hchkA, hLA, hunitA]
  · simp only [MSIDH_Party_B.compute_shared_secret, MSIDH_Party_A.compute_public_key]
    rw [if_pos hchkB, hLB, hunitB, ← hcomm]

/-- Witness for the C2 theorem: a complete honest run over `bkT`/`prT`
with masks 2 (mod 3) and 1 (mod 2); both parties accept and derive the
same j-invariant. -/
theorem shared_secret_agreement_witness :
    ∃ j : ℕ,
      MSIDH_Party_A.compute_shared_secret bkT prT (2, 1)
        (MSIDH_Party_B.compute_public_key bkT prT (1, 1)) = .ok j ∧
      MSIDH_Party_B.compute_shared_secret bkT prT (1, 1)
        (MSIDH_Party_A.compute_public_key bkT prT (2, 1)) = .ok j :=
  shared_secret_agreement bkT prT (2, 1) (1, 1) (by decide) (by decide)
    (by decide) (by decide)
    (fun m X Y => by simp [bkT])
    (fun m X Y => by simp [bkT])
    (by simp [bkT]) (by simp [bkT]) (by simp [bkT]) (by simp [bkT])
    (fun X Y n => rfl) (fun X Y n => rfl) rfl rfl rfl

theorem mathSqrtCheck_small {p A B : ℕ} (hp : p < FLOAT_CONV_LIMIT) :
    mathSqrtCheck p A B = .ok (bandB p A B) := by
  unfold mathSqrtCheck
  rw [if_neg (not_le.mpr hp)]

theorem onCB_true_iff {C Pt Coord T J : Type} (bk : AlgBackend C Pt Coord T J)
    (E0 : C) (P : Pt) : onCB bk E0 P = true ↔ onCurveE bk E0 P = .ok true := by
  unfold onCB onCurveE
  cases hxy : bk.xy P <;> simp [Except.map]

theorem verify_ok_true_iff {C Pt Coord T J : Type} [DecidableEq Pt]
    (nt : ℕ → Bool) (bk : AlgBackend C Pt Coord T J)
    (pr : MSIDH_Parameters C Pt) (hp : pr.p < FLOAT_CONV_LIMIT) :
    MSIDH_Parameters.verify_parameters nt bk pr = .ok true ↔
      specNineInvariants nt bk pr = true := by
  unfold MSIDH_Parameters.verify_parameters
  rw [mathSqrtCheck_small hp]
  simp only [specNineInvariants, Bool.and_eq_true, decide_eq_true_eq,
    onCB_true_iff, Bool.not_eq_true', Bool.or_eq_false_iff,
    decide_eq_false_iff_not]
  cases h1 : bk.is_supersingular pr.E0 <;> simp [h1]
  cases h2 : nt pr.p <;> simp [h2]
  by_cases h3 : (pr.p : ℤ) = (pr.A : ℤ) * (pr.B : ℤ) * (pr.f : ℤ) - 1 <;> simp [h3]
  cases h4 : bandB pr.p pr.A pr.B <;> simp [h4]
  by_cases h5 : Nat.gcd pr.A pr.B = 1 <;> simp [h5]
  cases hxa : onCurveE bk pr.E0 pr.PA <;> simp [hxa]
  cases hxb : onCurveE bk pr.E0 pr.QA <;> simp [hxb]
  cases hxc : onCurveE bk pr.E0 pr.PB <;> simp [hxc]
  cases hxd : onCurveE bk pr.E0 pr.QB <;> simp [hxd]
  rename_i va vb vc vd
  cases va <;> simp
  cases vb <;> simp
  cases vc <;> simp
  cases vd <;> simp
  by_cases h7a : bk.orderP pr.PA = pr.A <;> simp [h7a]
  by_cases h7b : bk.orderP pr.QA = pr.A <;> simp [h7b]
  by_cases h7c : bk.orderP pr.PB = pr.B <;> simp [h7c]
  by_cases h7d : bk.orderP pr.QB = pr.B <;> simp [h7d]
  by_cases h8a : pr.PA = pr.QA <;> simp [h8a]
  by_cases h8b : pr.PB = pr.QB <;> simp [h8b]

/-- C7 counterexample: the construction error does not list which of the
nine invariants failed — it is the same fixed string
`"Invalid parameters"` whether invariant 2 (primality) fails with
invariant 5 (coprimality) holding, or invariant 2 holds and invariant 5
fails.  First input: `p = 10` composite, `A = 2, B = 3` coprime; second
input: `p = 11` prime, `A = B = 2` not coprime. -/
theorem paramset_error_counterexample :
    isPrimeT 10 = false ∧ Nat.gcd 2 3 = 1 ∧
    isPrimeT 11 = true ∧ Nat.gcd 2 2 ≠ 1 ∧
    MSIDH_Parameters.initP isPrimeT bkT 1 1 10 () 2 3 = .error "Invalid parameters" ∧
    MSIDH_Parameters.initP isPrimeT bkT 1 3 11 () 2 2 = .error "Invalid parameters" :=
  ⟨rfl, rfl, rfl, by decide, rfl, rfl⟩

/-- C7 as amended: for a modulus small enough for the band check's float
conversion, construction succeeds (returning the derived parameter set,
with validation returning true) exactly when all nine invariants of §3
hold, and fails with an error — the generic `"Invalid parameters"`, which
does not identify the failing invariant, or a propagated backend error —
whenever some invariant fails; no partially constructed object is ever
exposed. -/
theorem paramset_construction_amended {C Pt Coord T J : Type}
    [AddCommMonoid Pt] [DecidableEq Pt]
    (nt : ℕ → Bool) (bk : AlgBackend C Pt Coord T J)
    (lamb f p : ℕ) (E0 : C) (A B : ℕ)
    (hp : p < FLOAT_CONV_LIMIT) :
    (specNineInvariants nt bk (MSIDH_Parameters.mkRaw bk lamb f p E0 A B) = true →
      MSIDH_Parameters.initP nt bk lamb f p E0 A B =
        .ok (MSIDH_Parameters.mkRaw bk lamb f p E0 A B) ∧
      MSIDH_Parameters.verify_parameters nt bk
        (MSIDH_Parameters.mkRaw bk lamb f p E0 A B) = .ok true) ∧
    (specNineInvariants nt bk (MSIDH_Parameters.mkRaw bk lamb f p E0 A B) = false →
      ∃ e, MSIDH_Parameters.initP nt bk lamb f p E0 A B = .error e) := by
  constructor
  · intro h9
    have hver : MSIDH_Parameters.verify_parameters nt bk
        (MSIDH_Parameters.mkRaw bk lamb f p E0 A B) = .ok true :=
      (verify_ok_true_iff nt bk _ hp).mpr h9
    exact ⟨by unfold MSIDH_Parameters.initP; simp [hver], hver⟩
  · intro h9
    cases hver : MSIDH_Parameters.verify_parameters nt bk
        (MSIDH_Parameters.mkRaw bk lamb f p E0 A B) with
    | error e => exact ⟨e, by unfold MSIDH_Parameters.initP; simp [hver]⟩
    | ok b =>
      cases b with
      | false =>
        exact ⟨"Invalid parameters", by unfold MSIDH_Parameters.initP; simp [hver]⟩
      | true =>
        have := (verify_ok_true_iff nt bk _ hp).mp hver
        rw [h9] at this
        exact absurd this (by simp)

/-- Witness for the amended C7 theorem: the fully valid small parameter
set over `bkT` is constructed successfully and validates true. -/
theorem paramset_construction_amended_witness :
    MSIDH_Parameters.initP isPrimeT bkT 10 1 5 () 2 3 =
      .ok (MSIDH_Parameters.mkRaw bkT 10 1 5 () 2 3) ∧
    MSIDH_Parameters.verify_parameters isPrimeT bkT
      (MSIDH_Parameters.mkRaw bkT 10 1 5 () 2 3) = .ok true :=
  (paramset_construction_amended isPrimeT bkT 10 1 5 () 2 3 (by decide)).1 (by decide)
